import Mathlib

/-!
# Verification of the EduMorph content-generation pipeline

A shallow embedding of the content-generation pipeline of `app/ai_services.py`:
the deterministic (tier-3) content generator, the tier-1 response parser, the
tiered `generate_ai_content` dispatcher, the flashcard/question generators, the
document text extractor dispatch, lesson synthesis, and the document-upload
orchestrator.  Network calls and file reads are modelled as oracles (explicit
function/record parameters); Python exceptions are modelled with `Except`;
Python strings are Lean `String`s (sequences of code points, matching Python
`str` indexing and slicing).
-/

namespace EduMorph

/-! ## Python string primitives

All primitives are defined by structural recursion over the character list of
the string, so every definition evaluates inside the kernel and is amenable to
induction.  They implement the exact semantics of the Python `str` methods the
source uses. -/

/-- Python `s.strip(chars)`: remove the given characters from both ends. -/
def pyStripChars (p : Char → Bool) (s : String) : String :=
  String.mk (((s.toList.dropWhile p).reverse.dropWhile p).reverse)

/-- Python `str.strip()` with no argument: remove surrounding whitespace. -/
def pyStrip (s : String) : String := pyStripChars Char.isWhitespace s

/-- Split a character list at every separator character selected by `p`,
keeping empty pieces (the shape of Python `str.split(sep)` for a one-character
separator). -/
def splitPred (p : Char → Bool) : List Char → List (List Char)
  | [] => [[]]
  | c :: cs =>
    match splitPred p cs with
    | [] => [[]]
    | q :: qs => if p c then [] :: q :: qs else (c :: q) :: qs

/-- Python `s.split(sep)` for a one-character separator: split at every
occurrence, keeping empty pieces (`''.split(sep) == ['']`). -/
def pySplitChar (sep : Char) (s : String) : List String :=
  (splitPred (fun c => c == sep) s.toList).map String.mk

/-- Python `str.split()` with no argument: split on whitespace, dropping
empty pieces. -/
def pySplitWs (s : String) : List String :=
  ((splitPred Char.isWhitespace s.toList).map String.mk).filter (fun w => w ≠ "")

/-- The characters stripped by `word.strip('.,!?;:')` in
`generate_enhanced_basic_content`. -/
def isPunct (c : Char) : Bool :=
  c = '.' || c = ',' || c = '!' || c = '?' || c = ';' || c = ':'

/-- Python `s[:n]` on a `str`: the first `n` code points. -/
def pySlice (n : Nat) (s : String) : String :=
  String.mk (s.toList.take n)

/-- Python `s.startswith(pre)`. -/
def pyStartsWith (s pre : String) : Bool :=
  pre.toList.isPrefixOf s.toList

/-- Python `s.lower()` (ASCII case mapping). -/
def pyLower (s : String) : String :=
  String.mk (s.toList.map Char.toLower)

/-- Fuel-driven worker for `pyReplace`: replace every non-overlapping
occurrence of `pat`, scanning left to right.  Each step consumes at least one
character when `pat` is non-empty, so fuel equal to the input length is always
sufficient and the fuel-exhausted branch is unreachable in `pyReplace`. -/
def pyReplaceAux (pat rep : List Char) : Nat → List Char → List Char
  | 0, l => l
  | _ + 1, [] => []
  | fuel + 1, c :: cs =>
    if pat.isPrefixOf (c :: cs) && !pat.isEmpty then
      rep ++ pyReplaceAux pat rep fuel ((c :: cs).drop pat.length)
    else
      c :: pyReplaceAux pat rep fuel cs

/-- Python `s.replace(pat, rep)`: replace every non-overlapping occurrence of
`pat`, left to right. -/
def pyReplace (s pat rep : String) : String :=
  String.mk (pyReplaceAux pat.toList rep.toList s.toList.length s.toList)

/-- Python `sep.join(xs)`. -/
def pyJoin (sep : String) : List String → String
  | [] => ""
  | [x] => x
  | x :: y :: xs => x ++ sep ++ pyJoin sep (y :: xs)

/-- Helper for `pyTitle`: walk the characters tracking whether the previous
character was alphabetic. -/
def pyTitleGo : Bool → List Char → List Char
  | _, [] => []
  | prevAlpha, c :: cs =>
    if c.isAlpha then
      (if prevAlpha then c.toLower else c.toUpper) :: pyTitleGo true cs
    else
      c :: pyTitleGo false cs

/-- Python `str.title()`: uppercase each letter that follows a non-letter,
lowercase the rest. -/
def pyTitle (s : String) : String := String.mk (pyTitleGo false s.toList)

/-- Python `word[0].isupper()` for a possibly-empty token (tokens from
`str.split()` are never empty, where Python would raise `IndexError` on `""`
this returns `false`). -/
def firstCharUpper (w : String) : Bool :=
  match w.toList with
  | [] => false
  | c :: _ => c.isUpper

/-- A Python exception, carrying its message. -/
structure PyErr where
  msg : String
deriving DecidableEq, Repr

/-! ## Data model: the AI content bundle -/

/-- The structured result of content generation:
`{'summary': ..., 'key_concepts': [...], 'notes': ...}`. -/
structure Bundle where
  summary : String
  key_concepts : List String
  notes : String
deriving DecidableEq, Repr

/-! ## Tier-3 deterministic generator (`generate_enhanced_basic_content`) -/

/-- The first-8 capitalized key words of `generate_enhanced_basic_content`:
`[word.strip('.,!?;:') for word in words if len(word.strip('.,!?;:')) > 5 and
word[0].isupper()][:8]`. -/
def enhancedKeyWords (text : String) : List String :=
  (((pySplitWs text).filter
      (fun w => 5 < (pyStripChars isPunct w).length && firstCharUpper w)).map
    (pyStripChars isPunct)).take 8

/-- The qualifying leading sentences of `generate_enhanced_basic_content`:
`[s.strip() for s in sentences[:3] if len(s.strip()) > 20]`. -/
def enhancedFirstSentences (text : String) : List String :=
  (((pySplitChar '.' text).take 3).map pyStrip).filter (fun s => 20 < s.length)

/-- `generate_enhanced_basic_content(text, subject)` from `app/ai_services.py`:
the no-network tier-3 generator. -/
def generate_enhanced_basic_content (text subject : String) : Bundle :=
  let key_words := enhancedKeyWords text
  let first_sentences := enhancedFirstSentences text
  let summary_text :=
    if first_sentences ≠ [] then pyJoin ". " first_sentences
    else "This content covers important " ++ subject ++
      " concepts and provides educational value."
  let notes :=
    "📚 " ++ pyTitle subject ++ " Study Notes\n\n" ++
    "📖 Summary:\n" ++ summary_text ++ "\n\n" ++
    "🔑 Key Concepts:\n" ++
      pyJoin "\n" ((key_words.take 5).map (fun w => "• " ++ w)) ++ "\n\n" ++
    "📝 Important Points:\n• This content contains valuable information about " ++
      subject ++
      "\n• Review the key concepts for better understanding" ++
      "\n• Practice with the generated flashcards and questions"
  { summary := summary_text
    key_concepts :=
      if key_words ≠ [] then key_words.take 5
      else [pyTitle subject ++ " Concept 1", pyTitle subject ++ " Concept 2",
            pyTitle subject ++ " Concept 3"]
    notes := notes }

/-! ## Tier-1 response parsing (`generate_openai_content`, lines 382-415) -/

/-- The section cursor of the tier-1 response parser (`current_section`). -/
inductive Sect
  | summary
  | concepts
  | notes
deriving DecidableEq, Repr

/-- The running parser state of the tier-1 response parser: `summary`,
`key_concepts`, `notes` and `current_section`. -/
structure ParseAcc where
  summary : String
  key_concepts : List String
  notes : String
  cursor : Option Sect
deriving DecidableEq, Repr

/-- One iteration of the `for line in lines` loop of the tier-1 parser: strip
the line, test the three section prefixes in order (`replace` removes every
occurrence of the tag, as Python `str.replace` does), otherwise append
non-empty lines while the cursor is on `concepts`. -/
def parseLine (acc : ParseAcc) (rawLine : String) : ParseAcc :=
  let line := pyStrip rawLine
  if pyStartsWith line "SUMMARY:" then
    { acc with cursor := some .summary
               summary := pyStrip (pyReplace line "SUMMARY:" "") }
  else if pyStartsWith line "KEY_CONCEPTS:" then
    let concepts_text := pyStrip (pyReplace line "KEY_CONCEPTS:" "")
    { acc with cursor := some .concepts
               key_concepts :=
                 if concepts_text ≠ "" then acc.key_concepts ++ [concepts_text]
                 else acc.key_concepts }
  else if pyStartsWith line "NOTES:" then
    { acc with cursor := some .notes
               notes := pyStrip (pyReplace line "NOTES:" "") }
  else if acc.cursor = some .concepts ∧ line ≠ "" then
    { acc with key_concepts := acc.key_concepts ++ [line] }
  else acc

/-- The subject-templated placeholder concepts used when parsing yields no key
concepts. -/
def placeholderConcepts (subject : String) : List String :=
  [pyTitle subject ++ " Concept 1", pyTitle subject ++ " Concept 2",
   pyTitle subject ++ " Concept 3"]

/-- The response-parsing section of `generate_openai_content` (lines 382-415):
split the raw model response by newline, fold the section-cursor loop over the
lines starting from empty summary/concepts and `notes` initialized to the whole
response, then apply the fallbacks (first 200 characters plus `"..."` for an
empty summary, placeholder concepts for empty concepts) and truncate the
concepts to 5. -/
def parse_openai_response (ai_response subject : String) : Bundle :=
  let init : ParseAcc :=
    { summary := "", key_concepts := [], notes := ai_response, cursor := none }
  let acc := (pySplitChar '\n' ai_response).foldl parseLine init
  let summary :=
    if acc.summary ≠ "" then acc.summary
    else if 200 < ai_response.length then pySlice 200 ai_response ++ "..."
    else ai_response
  let key_concepts :=
    if acc.key_concepts ≠ [] then acc.key_concepts
    else placeholderConcepts subject
  { summary := summary
    key_concepts := key_concepts.take 5
    notes := acc.notes }

/-! ## Tiered dispatch (`generate_ai_content`, `generate_openai_content`) -/

/-- `text[:2000] + "..."` truncation applied by `generate_openai_content`
before building the prompt. -/
def truncateInput (text : String) : String :=
  if 2000 < text.length then pySlice 2000 text ++ "..." else text

/-- The combined prompt built by `generate_openai_content`. -/
def combinedPrompt (text subject : String) : String :=
  "Subject: " ++ subject ++ "\nContent: " ++ truncateInput text ++ "\n\n" ++
  "Provide a structured response with:\n" ++
  "1. SUMMARY: Brief 2-3 sentence summary\n" ++
  "2. KEY_CONCEPTS: 3-5 main concepts (one per line)\n" ++
  "3. NOTES: Structured educational notes\n" ++
  "Keep responses concise and educational."

/-- An LLM chat oracle: maps a prompt to a raw text response, or to the
exception the network call raised. -/
def ChatOracle : Type := String → Except PyErr String

/-- `generate_openai_content(text, subject)`: truncate the input, build the
combined prompt, consult the backend, and parse the response; any exception is
re-raised wrapped as an `OpenAI API error`. -/
def generate_openai_content (oracle : ChatOracle) (text subject : String) :
    Except PyErr Bundle :=
  match oracle (combinedPrompt text subject) with
  | .error e => .error { msg := "OpenAI API error: " ++ e.msg }
  | .ok resp => .ok (parse_openai_response resp subject)

/-- Which backend API keys are configured (module-level
`OPENAI_API_KEY`/`HUGGINGFACE_API_KEY` truthiness). -/
structure Config where
  openai_key : Bool
  hf_key : Bool
deriving DecidableEq, Repr

/-- `generate_ai_content(text, subject)`: try OpenAI if configured, else the
Hugging Face stub (whose body is `pass`, i.e. it returns `None`), else the
enhanced basic generator; any exception falls back to the enhanced basic
generator.  The result is `Except` to model exception propagation: a `.error`
result would mean an exception reaches the caller. -/
def generate_ai_content (cfg : Config) (oracle : ChatOracle)
    (text subject : String) : Except PyErr (Option Bundle) :=
  let attempt : Except PyErr (Option Bundle) :=
    if cfg.openai_key then
      (generate_openai_content oracle text subject).map some
    else if cfg.hf_key then
      .ok none
    else
      .ok (some (generate_enhanced_basic_content text subject))
  match attempt with
  | .error _ => .ok (some (generate_enhanced_basic_content text subject))
  | .ok r => .ok r

/-! ## Derived-artifact generators (`generate_flashcards`, `generate_questions`) -/

/-- A flashcard dict `{'term': ..., 'definition': ...}`. -/
structure FlashcardData where
  term : String
  definition : String
deriving DecidableEq, Repr

/-- A question dict `{'question': ..., 'answer': ..., 'type': ...}`. -/
structure QuestionData where
  question : String
  answer : String
  qtype : String
deriving DecidableEq, Repr

/-- The outcome of `json.loads` on an LLM response followed by the
`isinstance(..., list)` test: the text is not valid JSON, or parses to a
non-list JSON value, or parses to a list of items. -/
inductive JsonOutcome (α : Type)
  | notJson
  | jsonNonList
  | jsonList (items : List α)
deriving DecidableEq, Repr

/-- An LLM oracle for the derived-artifact generators: maps the user prompt to
the classified JSON outcome of the response, or to a raised exception. -/
def JsonOracle (α : Type) : Type := String → Except PyErr (JsonOutcome α)

/-- The user prompt `f"Content: {text[:2000]}\nKey concepts: {key_concepts}"`
shared by `generate_flashcards` and `generate_questions`. -/
def artifactPrompt (text key_concepts : String) : String :=
  "Content: " ++ pySlice 2000 text ++ "\nKey concepts: " ++ key_concepts

/-- `generate_basic_flashcards(text, key_concepts)`: walk the first 5 pieces of
the comma-separated concepts string and emit one templated flashcard per
non-empty stripped concept. -/
def generate_basic_flashcards (text key_concepts : String) :
    List FlashcardData :=
  ((pySplitChar ',' key_concepts).take 5).filterMap (fun c =>
    let c := pyStrip c
    if c ≠ "" then
      some { term := c
             definition := "Definition related to " ++ c ++ " from the content." }
    else none)

/-- `generate_basic_questions(text, key_concepts)`: walk the first 3 pieces of
the comma-separated concepts string and emit one templated question per
non-empty stripped concept. -/
def generate_basic_questions (text key_concepts : String) :
    List QuestionData :=
  ((pySplitChar ',' key_concepts).take 3).filterMap (fun c =>
    let c := pyStrip c
    if c ≠ "" then
      some { question := "What is " ++ c ++ "?"
             answer := "Answer related to " ++ c ++ " from the content."
             qtype := "multiple_choice" }
    else none)

/-- `generate_flashcards(text, key_concepts)`: when an OpenAI key is set, call
the LLM; a raised exception or a response that is not valid JSON falls back to
the basic generator, a JSON non-list yields `[]`, and a JSON list is returned
as-is; with no key, use the basic generator. -/
def generate_flashcards (cfg : Config) (oracle : JsonOracle FlashcardData)
    (text key_concepts : String) : List FlashcardData :=
  if cfg.openai_key then
    match oracle (artifactPrompt text key_concepts) with
    | .error _ => generate_basic_flashcards text key_concepts
    | .ok .notJson => generate_basic_flashcards text key_concepts
    | .ok .jsonNonList => []
    | .ok (.jsonList l) => l
  else generate_basic_flashcards text key_concepts

/-- `generate_questions(text, key_concepts)`: same two-tier shape as
`generate_flashcards`, with the basic question generator as fallback. -/
def generate_questions (cfg : Config) (oracle : JsonOracle QuestionData)
    (text key_concepts : String) : List QuestionData :=
  if cfg.openai_key then
    match oracle (artifactPrompt text key_concepts) with
    | .error _ => generate_basic_questions text key_concepts
    | .ok .notJson => generate_basic_questions text key_concepts
    | .ok .jsonNonList => []
    | .ok (.jsonList l) => l
  else generate_basic_questions text key_concepts

/-! ## Text extraction dispatch (`extract_document_content`) -/

/-- The errors `extract_document_content` can raise: the `IndexError` from
`filename.rsplit('.', 1)[1]` on a dotless filename, the
`ValueError(f"Unsupported file type: {ext}")`, or a wrapped per-format
extraction failure. -/
inductive ExtractErr
  | indexError
  | unsupported (ext : String)
  | extractionFailed (msg : String)
deriving DecidableEq, Repr

/-- Python `filename.rsplit('.', 1)[1]`: the part after the last dot, `none`
when the filename contains no dot (where Python raises `IndexError`). -/
def lastExt (filename : String) : Option String :=
  if filename.toList.contains '.' then
    some ((pySplitChar '.' filename).getLastD "")
  else none

/-- A file-content oracle standing for the three format-specific readers
(`extract_pdf_content`, `extract_docx_content`, `extract_text_content`): each
either yields the extracted text of the file at the given path or raises. -/
structure FileOracle where
  pdf : String → Except PyErr String
  docx : String → Except PyErr String
  txt : String → Except PyErr String

/-- The fixed placeholder returned by `extract_powerpoint_content`. -/
def powerpointPlaceholder : String :=
  "PowerPoint content extraction not yet implemented. Please convert to PDF or DOCX."

/-- `extract_document_content(file_path, filename)`: dispatch on the lowercased
extension after the last dot; PDF/DOCX/text failures are re-raised wrapped,
`ppt`/`pptx` return the fixed placeholder, anything else raises the
unsupported-file-type `ValueError`. -/
def extract_document_content (fo : FileOracle) (file_path filename : String) :
    Except ExtractErr String :=
  match lastExt filename with
  | none => .error .indexError
  | some e =>
    let file_ext := pyLower e
    if file_ext = "pdf" then
      match fo.pdf file_path with
      | .ok t => .ok t
      | .error er => .error (.extractionFailed ("Error extracting PDF content: " ++ er.msg))
    else if file_ext = "docx" then
      match fo.docx file_path with
      | .ok t => .ok t
      | .error er => .error (.extractionFailed ("Error extracting DOCX content: " ++ er.msg))
    else if file_ext = "txt" || file_ext = "md" then
      match fo.txt file_path with
      | .ok t => .ok t
      | .error er => .error (.extractionFailed ("Error extracting text content: " ++ er.msg))
    else if file_ext = "ppt" || file_ext = "pptx" then
      .ok powerpointPlaceholder
    else
      .error (.unsupported file_ext)

/-- The supported extensions handled by `extract_document_content`. -/
def supportedExts : List String := ["pdf", "docx", "txt", "md", "ppt", "pptx"]

/-! ## Lesson synthesis (`create_lesson_from_content`) -/

/-- `AgeGroup` from `database/models.py`. -/
inductive AgeGroup
  | children
  | teens
  | young_adults
  | adults
deriving DecidableEq, Repr

/-- `ContentFormat` from `database/models.py`. -/
inductive ContentFormat
  | text
  | audio
  | video
  | pdf
  | docx
  | image
  | youtube
deriving DecidableEq, Repr

/-- The fields of the `Lesson` row built by `create_lesson_from_content`. -/
structure Lesson where
  title : String
  description : Option String
  topic : String
  subject : String
  teacher_id : Nat
  age_group_target : AgeGroup
  format_type : ContentFormat
  ai_summary : String
  is_published : Bool
  tags : List String
deriving DecidableEq, Repr

/-- The `format_map.get(format_type.lower(), ContentFormat.TEXT)` lookup of
`create_lesson_from_content`. -/
def formatMap (ft : String) : ContentFormat :=
  if ft = "pdf" then .pdf
  else if ft = "docx" then .docx
  else if ft = "txt" then .text
  else if ft = "md" then .text
  else if ft = "ppt" then .text
  else if ft = "pptx" then .text
  else if ft = "html" then .text
  else .text

/-- `create_lesson_from_content(title, subject, summary, user_id, age_group,
format_type)`: build a published `Lesson` with `title[:200]`,
`summary[:500] if summary else None` as description, titled subject as topic
and the mapped content format. -/
def create_lesson_from_content (title subject summary : String)
    (user_id : Nat) (age_group : AgeGroup) (format_type : String) : Lesson :=
  { title := pySlice 200 title
    description := if summary ≠ "" then some (pySlice 500 summary) else none
    topic := pyTitle subject
    subject := subject
    teacher_id := user_id
    age_group_target := age_group
    format_type := formatMap (pyLower format_type)
    ai_summary := summary
    is_published := true
    tags := [] }

/-! ## The document-upload orchestrator (`upload_document`)

The orchestrator is modelled over an abstract session: `pending` holds rows
added with `db.session.add` (and kept across `db.session.flush`), `committed`
holds rows made durable by `db.session.commit`; `db.session.rollback` clears
`pending` and leaves `committed` untouched.  Each pipeline stage is an
explicit fallible parameter, so the theorems quantify over every combination
of stage success and failure. -/

/-- A database row written by one ingestion. -/
inductive Rcd
  | document
  | content
  | flashcard (term definition : String)
  | question (q a t : String)
  | lesson
deriving DecidableEq, Repr

/-- The per-request session: rows pending in the transaction and rows already
committed (including rows committed before this request). -/
structure Session where
  pending : List Rcd
  committed : List Rcd
deriving DecidableEq, Repr

/-- `db.session.add`. -/
def Session.push (s : Session) (r : Rcd) : Session :=
  { s with pending := s.pending ++ [r] }

/-- A flashcard dict as returned by the flashcard generator: the upload loop
reads `flashcard_data['term']` and `flashcard_data['definition']`, which
raises `KeyError` when a key is absent. -/
structure FRow where
  term : Option String
  defn : Option String
deriving DecidableEq, Repr

/-- A question dict as returned by the question generator, read through
`question_data['question']`, `['answer']`, `['type']`. -/
structure QRow where
  question : Option String
  answer : Option String
  qtype : Option String
deriving DecidableEq, Repr

/-- Build the `Flashcard` row from a dict, `none` when a key is missing. -/
def mkFlashRcd (r : FRow) : Option Rcd :=
  match r.term, r.defn with
  | some t, some d => some (.flashcard t d)
  | _, _ => none

/-- Build the `Question` row from a dict, `none` when a key is missing. -/
def mkQuesRcd (r : QRow) : Option Rcd :=
  match r.question, r.answer, r.qtype with
  | some q, some a, some t => some (.question q a t)
  | _, _, _ => none

/-- The `for ... in ...: db.session.add(...)` loops of `upload_document`: add
one row per dict, stopping with the `KeyError` when a dict lacks a key.  The
session reached so far is returned alongside the error, as the real session
keeps the rows added before the exception. -/
def addRows {α : Type} (mk : α → Option Rcd) :
    List α → Session → Session × Option PyErr
  | [], s => (s, none)
  | r :: rs, s =>
    match mk r with
    | some c => addRows mk rs (s.push c)
    | none => (s, some { msg := "KeyError" })

/-- The fallible stages of one `upload_document` ingestion.  `extract` stands
for `extract_document_content`, `generate` for `generate_ai_content`,
`genFlash`/`genQues` for the two artifact generators (whose fallback path can
itself raise, e.g. `AttributeError` when the concepts value is not a string),
`mkLesson` for `create_lesson_from_content`, and the two flags for whether
`db.session.flush()` and `db.session.commit()` succeed. -/
structure UploadSteps where
  extract : Except PyErr String
  generate : String → Except PyErr Bundle
  genFlash : String → List String → Except PyErr (List FRow)
  genQues : String → List String → Except PyErr (List QRow)
  mkLesson : Except PyErr Unit
  flushOk : Bool
  commitOk : Bool

/-- The observable outcome of one ingestion: the success redirect, or the
flashed `Error processing document: ...` message. -/
inductive Outcome
  | success
  | failure (msg : String)
deriving DecidableEq, Repr

/-- What one ingestion leaves behind: the session, whether the temporary
uploaded file still exists, and the user-visible outcome. -/
structure UploadResult where
  session : Session
  tempExists : Bool
  outcome : Outcome
deriving DecidableEq, Repr

/-- The `except Exception` handler of `upload_document`:
`db.session.rollback()` (drop pending rows), remove the temp file if it
exists, and flash the error. -/
def failResult (s : Session) (e : PyErr) : UploadResult :=
  { session := { pending := [], committed := s.committed }
    tempExists := false
    outcome := .failure ("Error processing document: " ++ e.msg) }

/-- `upload_document` (POST path after validation, lines 81-160): the file has
just been saved to `temp_path`, then the try-block runs
extraction, generation, `Document` add + flush, `Content` add, the flashcard
and question loops, the swallowed lesson attempt, commit, and temp-file
removal; any exception reaches `failResult`. -/
def upload_document (st : UploadSteps) (s0 : Session) : UploadResult :=
  match st.extract with
  | .error e => failResult s0 e
  | .ok content =>
    match st.generate content with
    | .error e => failResult s0 e
    | .ok ai =>
      let s1 := s0.push .document
      if st.flushOk then
        let s2 := s1.push .content
        match st.genFlash content ai.key_concepts with
        | .error e => failResult s2 e
        | .ok frows =>
          match addRows mkFlashRcd frows s2 with
          | (s3, some e) => failResult s3 e
          | (s3, none) =>
            match st.genQues content ai.key_concepts with
            | .error e => failResult s3 e
            | .ok qrows =>
              match addRows mkQuesRcd qrows s3 with
              | (s4, some e) => failResult s4 e
              | (s4, none) =>
                let s5 :=
                  match st.mkLesson with
                  | .ok _ => s4.push .lesson
                  | .error _ => s4
                if st.commitOk then
                  { session := { pending := [],
                                 committed := s5.committed ++ s5.pending }
                    tempExists := false
                    outcome := .success }
                else failResult s5 { msg := "commit failed" }
      else failResult s1 { msg := "flush failed" }

/-! ## Specification-side definitions

These transcribe the spec's (or a claim's) wording, to be compared with the
embeddings above. -/

/-- The section-cursor policy transcribed from the spec, amended to what the
code does at the three points where the claim's wording diverges: (a) each
line is whitespace-stripped before the prefix test, (b) a tag line's content
is the line with every occurrence of the tag removed (Python `replace`), then
stripped, and (c) non-empty stripped unprefixed lines are appended while the
cursor is on concepts.  The scan carries the cursor and the three sections
explicitly and returns the final parser state. -/
def scanLinesSpec :
    List String → Option Sect → String → List String → String → ParseAcc
  | [], cur, sm, kc, nt => { summary := sm, key_concepts := kc, notes := nt, cursor := cur }
  | l :: ls, cur, sm, kc, nt =>
    let line := pyStrip l
    if pyStartsWith line "SUMMARY:" then
      scanLinesSpec ls (some .summary) (pyStrip (pyReplace line "SUMMARY:" "")) kc nt
    else if pyStartsWith line "KEY_CONCEPTS:" then
      let content := pyStrip (pyReplace line "KEY_CONCEPTS:" "")
      scanLinesSpec ls (some .concepts) sm
        (if content ≠ "" then kc ++ [content] else kc) nt
    else if pyStartsWith line "NOTES:" then
      scanLinesSpec ls (some .notes) sm kc (pyStrip (pyReplace line "NOTES:" ""))
    else if cur = some .concepts ∧ line ≠ "" then
      scanLinesSpec ls cur sm (kc ++ [line]) nt
    else
      scanLinesSpec ls cur sm kc nt

/-- The amended tier-1 parsing contract: run the section-cursor scan over the
lines with notes initialized to the whole raw response, then fall back for an
empty summary to the first 200 characters of the raw response with `"..."`
appended when the response exceeds 200 characters, replace empty concepts by
the three subject-templated placeholders, and truncate concepts to 5. -/
def parse_openai_response_spec (raw subject : String) : Bundle :=
  let acc := scanLinesSpec (pySplitChar '\n' raw) none "" [] raw
  { summary :=
      if acc.summary ≠ "" then acc.summary
      else if 200 < raw.length then pySlice 200 raw ++ "..." else raw
    key_concepts :=
      (if acc.key_concepts ≠ [] then acc.key_concepts
       else placeholderConcepts subject).take 5
    notes := acc.notes }

/-- The claim's tier-3 key-concept derivation: the words of the text
(whitespace tokens, reported with surrounding punctuation stripped) that are
capitalized and longer than 5 characters, first 8 found, in order. -/
def tierThreeKeyConceptsSpec (text : String) : List String :=
  ((pySplitWs text).filterMap (fun w =>
    let cleaned := pyStripChars isPunct w
    if 5 < cleaned.length && firstCharUpper w then some cleaned else none)).take 8

/-- The claim's tier-3 qualifying sentences: among the first 3 period-split
sentences, those whose stripped form is longer than 20 characters. -/
def tierThreeSentencesSpec (text : String) : List String :=
  ((pySplitChar '.' text).take 3).filterMap (fun s =>
    let t := pyStrip s
    if 20 < t.length then some t else none)

/-- The claim's tier-3 summary: the qualifying first sentences joined back
with `". "`, or the subject-templated generic sentence if none qualify. -/
def tierThreeSummarySpec (text subject : String) : String :=
  if tierThreeSentencesSpec text = [] then
    "This content covers important " ++ subject ++
      " concepts and provides educational value."
  else pyJoin ". " (tierThreeSentencesSpec text)

/-- The claim's tier-3 notes: the fixed template embedding the titled subject,
the summary, and at most 5 key concepts as bullets. -/
def tierThreeNotesSpec (text subject : String) : String :=
  "📚 " ++ pyTitle subject ++ " Study Notes\n\n" ++
  "📖 Summary:\n" ++ tierThreeSummarySpec text subject ++ "\n\n" ++
  "🔑 Key Concepts:\n" ++
    pyJoin "\n" (((tierThreeKeyConceptsSpec text).take 5).map (fun w => "• " ++ w)) ++
    "\n\n" ++
  "📝 Important Points:\n• This content contains valuable information about " ++
    subject ++
    "\n• Review the key concepts for better understanding" ++
    "\n• Practice with the generated flashcards and questions"

/-- The claim's tier-3 bundle: summary and notes as above; the stored concept
list is the first 5 of the derived concepts, or three subject-templated
placeholder concepts when none were found. -/
def tierThreeBundleSpec (text subject : String) : Bundle :=
  { summary := tierThreeSummarySpec text subject
    key_concepts :=
      if tierThreeKeyConceptsSpec text = [] then
        [pyTitle subject ++ " Concept 1", pyTitle subject ++ " Concept 2",
         pyTitle subject ++ " Concept 3"]
      else (tierThreeKeyConceptsSpec text).take 5
    notes := tierThreeNotesSpec text subject }

/-! ## Helper lemmas -/

/-- A guarded `filterMap` is a `filter` followed by a `map`. -/
theorem filterMap_guard {α β : Type} (p : α → Bool) (g : α → β) (l : List α) :
    (l.filterMap fun w => if p w then some (g w) else none) = (l.filter p).map g := by
  induction l with
  | nil => rfl
  | cons a l ih =>
    cases h : p a <;>
      simp [List.filterMap_cons, List.filter_cons, h, ih]

/-- A guarded `filterMap` over a decidable proposition is a `filter` followed
by a `map`. -/
theorem filterMap_guard_prop {α β : Type} (p : α → Prop) [DecidablePred p]
    (g : α → β) (l : List α) :
    (l.filterMap fun w => if p w then some (g w) else none) =
      (l.filter fun w => decide (p w)).map g := by
  induction l with
  | nil => rfl
  | cons a l ih =>
    by_cases h : p a <;>
      simp [List.filterMap_cons, List.filter_cons, h, ih]

/-- `pyJoin` of a non-empty list is at least as long as its head. -/
theorem pyJoin_head_length_le (sep a : String) (l : List String) :
    a.length ≤ (pyJoin sep (a :: l)).length := by
  cases l with
  | nil => exact Nat.le_refl _
  | cons b t =>
    show a.length ≤ (a ++ sep ++ pyJoin sep (b :: t)).length
    rw [String.length_append, String.length_append]
    omega

/-- `pySlice n` yields at most `n` characters. -/
theorem pySlice_length_le (n : Nat) (s : String) : (pySlice n s).length ≤ n := by
  show (s.toList.take n).length ≤ n
  rw [List.length_take]
  exact min_le_left _ _

/-- A string of positive length is not empty. -/
theorem ne_empty_of_length_pos {s : String} (h : 0 < s.length) : s ≠ "" := by
  intro he
  rw [he] at h
  exact Nat.lt_irrefl 0 h

/-! ## C5: the tier-3 deterministic generator matches its specification -/

/-- C5: for every input text and subject, the deterministic (tier-3) generator
derives key concepts as the capitalized words of the text (reported with
surrounding punctuation stripped) longer than 5 characters, first 8 found in
order; derives the summary from the first 1-3 sentences longer than 20
characters, or a subject-templated generic sentence if none qualify; and
composes notes as the fixed template embedding the subject, the summary, and
at most 5 key concepts.  Stated as equality between the embedding of
`generate_enhanced_basic_content` and the bundle transcribed from the claim. -/
theorem tier3_generator_matches_spec (text subject : String) :
    generate_enhanced_basic_content text subject = tierThreeBundleSpec text subject := by
  have hk : tierThreeKeyConceptsSpec text = enhancedKeyWords text := by
    unfold tierThreeKeyConceptsSpec enhancedKeyWords
    rw [filterMap_guard
      (fun w => 5 < (pyStripChars isPunct w).length && firstCharUpper w)
      (fun w => pyStripChars isPunct w)]
  have hs : tierThreeSentencesSpec text = enhancedFirstSentences text := by
    unfold tierThreeSentencesSpec enhancedFirstSentences
    show ((pySplitChar '.' text).take 3).filterMap
        (fun s => if 20 < (pyStrip s).length then some (pyStrip s) else none) = _
    rw [filterMap_guard_prop (fun s => 20 < (pyStrip s).length) (fun s => pyStrip s),
      List.filter_map]
    rfl
  have hsum : tierThreeSummarySpec text subject =
      (if enhancedFirstSentences text ≠ [] then pyJoin ". " (enhancedFirstSentences text)
       else "This content covers important " ++ subject ++
         " concepts and provides educational value.") := by
    unfold tierThreeSummarySpec
    rw [hs]
    cases h : enhancedFirstSentences text <;> simp [h]
  simp only [generate_enhanced_basic_content, tierThreeBundleSpec,
    tierThreeNotesSpec, hsum, hk, hsum]
  cases h : enhancedKeyWords text <;> simp [h]

/-! ## C4: the tier-1 response parser -/

/-- The section-cursor fold of the source parser computes exactly the explicit
scan of the amended policy, from any starting state. -/
theorem foldl_parseLine_eq_scan (ls : List String) :
    ∀ (cur : Option Sect) (sm : String) (kc : List String) (nt : String),
      List.foldl parseLine
          { summary := sm, key_concepts := kc, notes := nt, cursor := cur } ls =
        scanLinesSpec ls cur sm kc nt := by
  induction ls with
  | nil => intro cur sm kc nt; rfl
  | cons l ls ih =>
    intro cur sm kc nt
    rw [List.foldl_cons]
    simp only [parseLine, scanLinesSpec]
    split_ifs <;> exact ih _ _ _ _

/-- C4 (amended): the tier-1 parser follows the section-cursor policy applied
to whitespace-stripped lines, with every occurrence of a tag removed from its
line (Python `replace`); afterwards an empty summary falls back to the first
200 characters of the raw response with `"..."` appended when the response
exceeds 200 characters, empty key concepts are replaced by the three
subject-templated placeholders, and key concepts are truncated to at most 5
entries. -/
theorem tier1_parser_matches_amended_spec (raw subject : String) :
    parse_openai_response raw subject = parse_openai_response_spec raw subject ∧
    (parse_openai_response raw subject).key_concepts.length ≤ 5 := by
  constructor
  · simp only [parse_openai_response, parse_openai_response_spec]
    rw [foldl_parseLine_eq_scan]
  · simp only [parse_openai_response]
    show (List.take 5 _).length ≤ 5
    rw [List.length_take]
    exact min_le_left _ _

/-- A raw response of 201 identical characters: none of its lines carries a
section tag. -/
def c4raw : String := String.mk (List.replicate 201 'a')

set_option maxRecDepth 40000 in
/-- C4 (counterexample): on a 201-character raw response with no tagged line,
the parsed summary is empty, so the claim requires the summary fallback to be
the first 200 characters of the raw response; the code instead appends `"..."`
to them, so the parsed summary differs from the first 200 characters. -/
theorem tier1_parser_fallback_counterexample :
    ((pySplitChar '\n' c4raw).all fun l =>
        !(pyStartsWith (pyStrip l) "SUMMARY:" ||
          pyStartsWith (pyStrip l) "KEY_CONCEPTS:" ||
          pyStartsWith (pyStrip l) "NOTES:")) = true ∧
    200 < c4raw.length ∧
    (parse_openai_response c4raw "math").summary = pySlice 200 c4raw ++ "..." ∧
    (parse_openai_response c4raw "math").summary ≠ pySlice 200 c4raw := by
  refine ⟨by decide, by decide, by decide, by decide⟩

/-! ## C10: notes when no line is tagged `NOTES:` -/

/-- The fold of the parser never changes `notes` when no stripped line starts
with the `NOTES:` tag. -/
theorem foldl_parseLine_notes (ls : List String) :
    ∀ acc : ParseAcc,
      (∀ l ∈ ls, pyStartsWith (pyStrip l) "NOTES:" = false) →
      (List.foldl parseLine acc ls).notes = acc.notes := by
  induction ls with
  | nil => intro acc _; rfl
  | cons l ls ih =>
    intro acc h
    have hl : pyStartsWith (pyStrip l) "NOTES:" = false := h l (List.mem_cons_self l ls)
    have hrest : ∀ x ∈ ls, pyStartsWith (pyStrip x) "NOTES:" = false :=
      fun x hx => h x (List.mem_cons_of_mem _ hx)
    rw [List.foldl_cons, ih _ hrest]
    simp only [parseLine]
    split_ifs <;> first | rfl | simp_all

/-- C10 (amended): for every raw tier-1 response in which no line, after
stripping surrounding whitespace, starts with `NOTES:`, the parsed notes field
is the entire raw response unchanged. -/
theorem notes_default_is_raw_response (raw subject : String)
    (h : ∀ l ∈ pySplitChar '\n' raw, pyStartsWith (pyStrip l) "NOTES:" = false) :
    (parse_openai_response raw subject).notes = raw := by
  unfold parse_openai_response
  show (List.foldl parseLine
      { summary := "", key_concepts := [], notes := raw, cursor := none }
      (pySplitChar '\n' raw)).notes = raw
  rw [foldl_parseLine_notes _ _ h]

/-- Witness for the amended C10 theorem at a concrete response. -/
theorem notes_default_is_raw_response_witness :
    (parse_openai_response "SUMMARY: water cycle\nrain" "science").notes =
      "SUMMARY: water cycle\nrain" :=
  notes_default_is_raw_response "SUMMARY: water cycle\nrain" "science" (by decide)

/-- The raw response refuting C10 as stated: its only line starts with two
spaces, not with `NOTES:`. -/
def c10raw : String := "  NOTES: hi"

/-- C10 (counterexample): no line of the raw response starts with `NOTES:`,
yet the parsed notes field is not the raw response (the parser strips each
line before testing the prefix, so `notes` is overwritten with `"hi"`). -/
theorem notes_overwritten_counterexample :
    ((pySplitChar '\n' c10raw).all fun l => !(pyStartsWith l "NOTES:")) = true ∧
    (parse_openai_response c10raw "math").notes = "hi" ∧
    (parse_openai_response c10raw "math").notes ≠ c10raw := by
  refine ⟨by decide, by decide, by decide⟩

/-! ## C3: `generate_ai_content` never raises; C8: determinism -/

/-- The summary produced by the tier-3 generator is never empty: either it
joins sentences longer than 20 characters, or it is the non-empty
subject-templated generic sentence. -/
theorem enhanced_summary_length_pos (text subject : String) :
    0 < (generate_enhanced_basic_content text subject).summary.length := by
  simp only [generate_enhanced_basic_content]
  cases hfs : enhancedFirstSentences text with
  | nil =>
    rw [if_neg (by simp)]
    rw [String.length_append, String.length_append]
    have h30 : 0 < ("This content covers important " : String).length := by decide
    omega
  | cons a l =>
    have ha : a ∈ enhancedFirstSentences text := by
      rw [hfs]; exact List.mem_cons_self a l
    have ha2 : 20 < a.length := by
      unfold enhancedFirstSentences at ha
      exact of_decide_eq_true (List.mem_filter.mp ha).2
    rw [if_pos (by simp)]
    have := pyJoin_head_length_le ". " a l
    omega

/-- The key-concept list produced by the tier-3 generator holds at most 5
entries: either the first 5 of the derived words, or the 3 placeholders. -/
theorem enhanced_concepts_length_le (text subject : String) :
    (generate_enhanced_basic_content text subject).key_concepts.length ≤ 5 := by
  simp only [generate_enhanced_basic_content]
  cases hk : enhancedKeyWords text with
  | nil => simp [hk]
  | cons a l =>
    rw [if_pos (by simp)]
    rw [List.length_take]
    omega

/-- C3: for every configuration, backend behaviour, text and subject,
`generate_ai_content` returns (never raises); and when neither the primary nor
the secondary backend is configured it returns the tier-3 bundle, whose
summary is a non-empty string and whose key concepts hold at most 5 entries. -/
theorem generate_ai_content_total (cfg : Config) (oracle : ChatOracle)
    (text subject : String) :
    (∃ r, generate_ai_content cfg oracle text subject = Except.ok r) ∧
    (cfg.openai_key = false → cfg.hf_key = false →
      generate_ai_content cfg oracle text subject =
        Except.ok (some (generate_enhanced_basic_content text subject)) ∧
      (generate_enhanced_basic_content text subject).summary ≠ "" ∧
      (generate_enhanced_basic_content text subject).key_concepts.length ≤ 5) := by
  constructor
  · cases hcfg : cfg.openai_key with
    | true =>
      cases ho : generate_openai_content oracle text subject with
      | error e =>
        exact ⟨some (generate_enhanced_basic_content text subject),
          by simp [generate_ai_content, hcfg, ho, Except.map]⟩
      | ok b =>
        exact ⟨some b, by simp [generate_ai_content, hcfg, ho, Except.map]⟩
    | false =>
      cases hhf : cfg.hf_key with
      | true => exact ⟨none, by simp [generate_ai_content, hcfg, hhf]⟩
      | false =>
        exact ⟨some (generate_enhanced_basic_content text subject),
          by simp [generate_ai_content, hcfg, hhf]⟩
  · intro h1 h2
    refine ⟨by simp [generate_ai_content, h1, h2], ?_, enhanced_concepts_length_le text subject⟩
    exact ne_empty_of_length_pos (enhanced_summary_length_pos text subject)

/-- Witness for C3 at a concrete unconfigured run with a failing backend. -/
theorem generate_ai_content_total_witness :
    generate_ai_content { openai_key := false, hf_key := false }
        (fun _ => Except.error { msg := "network down" }) "t" "s" =
      Except.ok (some (generate_enhanced_basic_content "t" "s")) ∧
    (generate_enhanced_basic_content "t" "s").summary ≠ "" :=
  ⟨(generate_ai_content_total { openai_key := false, hf_key := false }
      (fun _ => Except.error { msg := "network down" }) "t" "s").2 rfl rfl |>.1,
   (generate_ai_content_total { openai_key := false, hf_key := false }
      (fun _ => Except.error { msg := "network down" }) "t" "s").2 rfl rfl |>.2.1⟩

/-- C8: with no backend configured, `generate_ai_content` consults no oracle:
two runs against arbitrary (and arbitrarily different) network states return
the same bundle, namely the tier-3 result — the deterministic fallback is a
pure function of its inputs. -/
theorem generate_deterministic_without_backends (o1 o2 : ChatOracle)
    (text subject : String) :
    generate_ai_content { openai_key := false, hf_key := false } o1 text subject =
      generate_ai_content { openai_key := false, hf_key := false } o2 text subject ∧
    generate_ai_content { openai_key := false, hf_key := false } o1 text subject =
      Except.ok (some (generate_enhanced_basic_content text subject)) :=
  ⟨rfl, rfl⟩

/-! ## C2: bounds of the derived-artifact generators -/

/-- The deterministic flashcard fallback emits at most 5 items. -/
theorem basic_flashcards_length_le (text kc : String) :
    (generate_basic_flashcards text kc).length ≤ 5 := by
  unfold generate_basic_flashcards
  refine le_trans (List.length_filterMap_le _ _) ?_
  rw [List.length_take]
  exact min_le_left _ _

/-- The deterministic question fallback emits at most 3 items. -/
theorem basic_questions_length_le (text kc : String) :
    (generate_basic_questions text kc).length ≤ 3 := by
  unfold generate_basic_questions
  refine le_trans (List.length_filterMap_le _ _) ?_
  rw [List.length_take]
  exact min_le_left _ _

/-- C2 (amended): on every path except a backend response that parses as a
JSON list, `generate_flashcards` returns at most 5 items and
`generate_questions` at most 3, regardless of how many concepts are supplied;
when the backend response parses as a JSON list, that list is returned without
truncation. -/
theorem artifact_generators_bounds (cfg : Config)
    (ofc : JsonOracle FlashcardData) (oq : JsonOracle QuestionData)
    (text kc : String) :
    ((generate_flashcards cfg ofc text kc).length ≤ 5 ∨
      ∃ l, ofc (artifactPrompt text kc) = Except.ok (JsonOutcome.jsonList l) ∧
        generate_flashcards cfg ofc text kc = l) ∧
    ((generate_questions cfg oq text kc).length ≤ 3 ∨
      ∃ l, oq (artifactPrompt text kc) = Except.ok (JsonOutcome.jsonList l) ∧
        generate_questions cfg oq text kc = l) := by
  constructor
  · cases hcfg : cfg.openai_key with
    | false =>
      exact Or.inl (by simp [generate_flashcards, hcfg, basic_flashcards_length_le])
    | true =>
      cases ho : ofc (artifactPrompt text kc) with
      | error e =>
        exact Or.inl (by simp [generate_flashcards, hcfg, ho, basic_flashcards_length_le])
      | ok j =>
        cases j with
        | notJson =>
          exact Or.inl (by simp [generate_flashcards, hcfg, ho, basic_flashcards_length_le])
        | jsonNonList =>
          exact Or.inl (by simp [generate_flashcards, hcfg, ho])
        | jsonList l =>
          exact Or.inr ⟨l, rfl, by simp [generate_flashcards, hcfg, ho]⟩
  · cases hcfg : cfg.openai_key with
    | false =>
      exact Or.inl (by simp [generate_questions, hcfg, basic_questions_length_le])
    | true =>
      cases ho : oq (artifactPrompt text kc) with
      | error e =>
        exact Or.inl (by simp [generate_questions, hcfg, ho, basic_questions_length_le])
      | ok j =>
        cases j with
        | notJson =>
          exact Or.inl (by simp [generate_questions, hcfg, ho, basic_questions_length_le])
        | jsonNonList =>
          exact Or.inl (by simp [generate_questions, hcfg, ho])
        | jsonList l =>
          exact Or.inr ⟨l, rfl, by simp [generate_questions, hcfg, ho]⟩

/-- A backend whose response parses as a JSON list of six flashcard dicts. -/
def sixCardOracle : JsonOracle FlashcardData := fun _ =>
  Except.ok (JsonOutcome.jsonList (List.replicate 6 { term := "t", definition := "d" }))

/-- C2 (counterexample): with an OpenAI key configured and a backend returning
a valid JSON list of six items, `generate_flashcards` returns all six — the
claimed bound of 5 does not hold on the LLM path. -/
theorem flashcards_bound_counterexample :
    (generate_flashcards { openai_key := true, hf_key := false } sixCardOracle
        "text" "concepts").length = 6 ∧
    ¬ (generate_flashcards { openai_key := true, hf_key := false } sixCardOracle
        "text" "concepts").length ≤ 5 := by
  refine ⟨by decide, by decide⟩

/-! ## C6: empty or whitespace-only concepts strings -/

/-- A whitespace character is not a comma. -/
theorem whitespace_ne_comma {c : Char} (h : c.isWhitespace = true) :
    (c == ',') = false := by
  have h2 := h
  simp only [Char.isWhitespace, Bool.or_eq_true, decide_eq_true_eq] at h2
  rcases h2 with ((h1 | h1) | h1) | h1 <;> subst h1 <;> decide

/-- `splitPred` is the identity chunk when no character is a separator. -/
theorem splitPred_no_sep (p : Char → Bool) (l : List Char)
    (h : ∀ c ∈ l, p c = false) : splitPred p l = [l] := by
  induction l with
  | nil => rfl
  | cons c cs ih =>
    have hc : p c = false := h c (List.mem_cons_self c cs)
    have hrest : splitPred p cs = [cs] :=
      ih fun x hx => h x (List.mem_cons_of_mem _ hx)
    simp [splitPred, hrest, hc]

/-- Stripping a string of whitespace-only characters yields the empty
string. -/
theorem pyStrip_all_whitespace (s : String)
    (h : ∀ c ∈ s.toList, c.isWhitespace = true) : pyStrip s = "" := by
  unfold pyStrip pyStripChars
  rw [List.dropWhile_eq_nil_iff.mpr h]
  rfl

/-- C6: for the deterministic fallback paths of the flashcard and question
generators, an empty or whitespace-only comma-separated key-concepts string
yields an empty result list rather than an error. -/
theorem basic_generators_empty_on_blank_concepts (text kc : String)
    (h : ∀ c ∈ kc.toList, c.isWhitespace = true) :
    generate_basic_flashcards text kc = [] ∧
    generate_basic_questions text kc = [] := by
  have hsplit : pySplitChar ',' kc = [kc] := by
    unfold pySplitChar
    rw [splitPred_no_sep _ _ (fun c hc => whitespace_ne_comma (h c hc))]
    rfl
  have hstrip : pyStrip kc = "" := pyStrip_all_whitespace kc h
  constructor
  · unfold generate_basic_flashcards
    rw [hsplit]
    simp [hstrip]
  · unfold generate_basic_questions
    rw [hsplit]
    simp [hstrip]

/-- Witness for C6 at the one-space concepts string. -/
theorem basic_generators_empty_on_blank_concepts_witness :
    generate_basic_flashcards "some text" " " = [] ∧
    generate_basic_questions "some text" " " = [] :=
  basic_generators_empty_on_blank_concepts "some text" " " (by decide)

/-! ## C7: the extraction dispatch -/

/-- A concrete file oracle whose three readers all succeed. -/
def happyFiles : FileOracle :=
  { pdf := fun _ => Except.ok "pdf text"
    docx := fun _ => Except.ok "docx text"
    txt := fun _ => Except.ok "plain text" }

/-- C7 (counterexample): on the dotless filename `"README"` the extension
lookup itself fails, so `extract_document_content` raises an `IndexError`
rather than the unsupported-format `ValueError`, even though the filename has
no supported extension. -/
theorem extract_dotless_counterexample :
    extract_document_content happyFiles "uploads/README" "README" =
      Except.error ExtractErr.indexError ∧
    lastExt "README" = none ∧
    (∀ e, extract_document_content happyFiles "uploads/README" "README" ≠
      Except.error (ExtractErr.unsupported e)) := by
  refine ⟨rfl, by decide, ?_⟩
  intro e h
  have h1 : extract_document_content happyFiles "uploads/README" "README" =
      Except.error ExtractErr.indexError := rfl
  rw [h1] at h
  simp at h

/-- C7 (amended): for every filename containing a dot, the extractor raises
the unsupported-format error exactly when the lowercased extension after the
last dot is outside `{pdf, docx, txt, md, ppt, pptx}`; for the presentation
extensions `ppt`/`pptx` it returns the fixed placeholder string rather than
raising; a dotless filename instead raises an `IndexError`. -/
theorem extract_unsupported_iff (fo : FileOracle) (path fn ext : String)
    (hext : lastExt fn = some ext) :
    ((∃ e, extract_document_content fo path fn =
        Except.error (ExtractErr.unsupported e)) ↔ pyLower ext ∉ supportedExts) ∧
    (pyLower ext = "ppt" ∨ pyLower ext = "pptx" →
      extract_document_content fo path fn = Except.ok powerpointPlaceholder) := by
  unfold extract_document_content
  rw [hext]
  dsimp only
  by_cases h1 : pyLower ext = "pdf"
  · rw [h1]
    refine ⟨⟨?_, fun hn => absurd (by decide) hn⟩,
      fun hp => by rcases hp with hp | hp <;> exact absurd hp (by decide)⟩
    rintro ⟨e, he⟩
    rw [if_pos rfl] at he
    cases hp : fo.pdf path <;> rw [hp] at he <;> simp at he
  · by_cases h2 : pyLower ext = "docx"
    · rw [h2]
      refine ⟨⟨?_, fun hn => absurd (by decide) hn⟩,
        fun hp => by rcases hp with hp | hp <;> exact absurd hp (by decide)⟩
      rintro ⟨e, he⟩
      rw [if_neg (by decide), if_pos rfl] at he
      cases hp : fo.docx path <;> rw [hp] at he <;> simp at he
    · by_cases h3t : pyLower ext = "txt"
      · rw [h3t]
        refine ⟨⟨?_, fun hn => absurd (by decide) hn⟩,
          fun hp => by rcases hp with hp | hp <;> exact absurd hp (by decide)⟩
        rintro ⟨e, he⟩
        rw [if_neg (by decide), if_neg (by decide), if_pos (by decide)] at he
        cases hp : fo.txt path <;> rw [hp] at he <;> simp at he
      · by_cases h3m : pyLower ext = "md"
        · rw [h3m]
          refine ⟨⟨?_, fun hn => absurd (by decide) hn⟩,
            fun hp => by rcases hp with hp | hp <;> exact absurd hp (by decide)⟩
          rintro ⟨e, he⟩
          rw [if_neg (by decide), if_neg (by decide), if_pos (by decide)] at he
          cases hp : fo.txt path <;> rw [hp] at he <;> simp at he
        · by_cases h4p : pyLower ext = "ppt"
          · rw [h4p]
            refine ⟨⟨?_, fun hn => absurd (by decide) hn⟩, fun _ => ?_⟩
            · rintro ⟨e, he⟩
              rw [if_neg (by decide), if_neg (by decide), if_neg (by decide),
                if_pos (by decide)] at he
              simp at he
            · rw [if_neg (by decide), if_neg (by decide), if_neg (by decide),
                if_pos (by decide)]
          · by_cases h4q : pyLower ext = "pptx"
            · rw [h4q]
              refine ⟨⟨?_, fun hn => absurd (by decide) hn⟩, fun _ => ?_⟩
              · rintro ⟨e, he⟩
                rw [if_neg (by decide), if_neg (by decide), if_neg (by decide),
                  if_pos (by decide)] at he
                simp at he
              · rw [if_neg (by decide), if_neg (by decide), if_neg (by decide),
                  if_pos (by decide)]
            · have c3 : ¬((pyLower ext = "txt" || pyLower ext = "md") = true) := by
                simp [h3t, h3m]
              have c4 : ¬((pyLower ext = "ppt" || pyLower ext = "pptx") = true) := by
                simp [h4p, h4q]
              rw [if_neg h1, if_neg h2, if_neg c3, if_neg c4]
              refine ⟨⟨fun _ => ?_, fun _ => ⟨pyLower ext, rfl⟩⟩,
                fun hp => absurd hp (not_or.mpr ⟨h4p, h4q⟩)⟩
              simp [supportedExts, h1, h2, h3t, h3m, h4p, h4q]

/-- Witness for the amended C7 theorem at a concrete unsupported extension and
a concrete presentation extension. -/
theorem extract_unsupported_iff_witness :
    (∃ e, extract_document_content happyFiles "p" "notes.xyz" =
      Except.error (ExtractErr.unsupported e)) ∧
    extract_document_content happyFiles "p" "slides.PPTX" =
      Except.ok powerpointPlaceholder :=
  ⟨(extract_unsupported_iff happyFiles "p" "notes.xyz" "xyz" (by decide)).1.mpr
      (by decide),
   (extract_unsupported_iff happyFiles "p" "slides.PPTX" "PPTX" (by decide)).2
      (Or.inr (by decide))⟩

/-! ## C1 and C9: the upload orchestrator -/

/-- The add-loops never touch committed rows. -/
theorem addRows_committed {α : Type} (mk : α → Option Rcd) (rs : List α) :
    ∀ s : Session, ((addRows mk rs s).1).committed = s.committed := by
  induction rs with
  | nil => intro s; rfl
  | cons r rs ih =>
    intro s
    unfold addRows
    cases mk r with
    | some c => exact ih (s.push c)
    | none => rfl

/-- C1: for every combination of stage outcomes and every starting session,
the upload orchestrator removes the temporary file (on the success path and on
every failure path), and whenever the outcome is a failure the session was
rolled back: nothing new is committed and no row of the ingestion is left
pending. -/
theorem upload_atomic_and_cleans_up (st : UploadSteps) (s0 : Session) :
    (upload_document st s0).tempExists = false ∧
    (∀ m, (upload_document st s0).outcome = Outcome.failure m →
      (upload_document st s0).session.committed = s0.committed ∧
      (upload_document st s0).session.pending = []) := by
  unfold upload_document
  rcases hex : st.extract with e | content <;> simp only [hex]
  · exact ⟨rfl, fun m _ => ⟨rfl, rfl⟩⟩
  · rcases hgen : st.generate content with e | ai <;> simp only [hgen]
    · exact ⟨rfl, fun m _ => ⟨rfl, rfl⟩⟩
    · cases hfl : st.flushOk
      · rw [if_neg (by decide)]
        exact ⟨rfl, fun m _ => ⟨rfl, rfl⟩⟩
      · rw [if_pos rfl]
        rcases hgf : st.genFlash content ai.key_concepts with e | frows <;>
          simp only [hgf]
        · exact ⟨rfl, fun m _ => ⟨rfl, rfl⟩⟩
        · have hf := addRows_committed mkFlashRcd frows
            ((s0.push Rcd.document).push Rcd.content)
          rcases haf : addRows mkFlashRcd frows
              ((s0.push Rcd.document).push Rcd.content) with ⟨s3, o3⟩
          rw [haf] at hf
          cases o3
          · rcases hgq : st.genQues content ai.key_concepts with e | qrows <;>
              simp only [hgq]
            · exact ⟨rfl, fun m _ => ⟨hf, rfl⟩⟩
            · have hq := addRows_committed mkQuesRcd qrows s3
              rcases haq : addRows mkQuesRcd qrows s3 with ⟨s4, o4⟩
              rw [haq] at hq
              cases o4
              · rcases hle : st.mkLesson with e2 | u <;> simp only [hle] <;>
                  cases hc : st.commitOk
                · rw [if_neg (by decide)]
                  exact ⟨rfl, fun m _ => ⟨hq.trans hf, rfl⟩⟩
                · rw [if_pos rfl]
                  exact ⟨rfl, fun m hm => by cases hm⟩
                · rw [if_neg (by decide)]
                  exact ⟨rfl, fun m _ => ⟨hq.trans hf, rfl⟩⟩
                · rw [if_pos rfl]
                  exact ⟨rfl, fun m hm => by cases hm⟩
              · exact ⟨rfl, fun m _ => ⟨hq.trans hf, rfl⟩⟩
          · exact ⟨rfl, fun m _ => ⟨hf, rfl⟩⟩

/-- Concrete stages whose extraction fails. -/
def failingExtractSteps : UploadSteps :=
  { extract := Except.error { msg := "corrupt file" }
    generate := fun _ => Except.ok { summary := "s", key_concepts := [], notes := "n" }
    genFlash := fun _ _ => Except.ok []
    genQues := fun _ _ => Except.ok []
    mkLesson := Except.ok ()
    flushOk := true
    commitOk := true }

/-- A session that already holds one committed row from an earlier request. -/
def priorSession : Session :=
  { pending := [], committed := [Rcd.document] }

/-- Witness for C1 at a concrete failing ingestion. -/
theorem upload_atomic_and_cleans_up_witness :
    (upload_document failingExtractSteps priorSession).tempExists = false ∧
    (upload_document failingExtractSteps priorSession).session.committed =
      priorSession.committed ∧
    (upload_document failingExtractSteps priorSession).session.pending = [] := by
  have h := upload_atomic_and_cleans_up failingExtractSteps priorSession
  have hout : (upload_document failingExtractSteps priorSession).outcome =
      Outcome.failure "Error processing document: corrupt file" := rfl
  exact ⟨h.1, (h.2 _ hout).1, (h.2 _ hout).2⟩

/-- C9: lesson synthesis is best-effort — replacing the lesson stage by a
raising one never changes the ingestion outcome — and the synthesized lesson
has its title truncated to at most 200 characters, its description (when the
summary is non-empty) truncated to at most 500 characters, and is published
immediately. -/
theorem lesson_best_effort_and_shape (st : UploadSteps) (s0 : Session)
    (e : PyErr) (title subject summary : String) (uid : Nat) (ag : AgeGroup)
    (ft : String) :
    (upload_document { st with mkLesson := Except.error e } s0).outcome =
      (upload_document st s0).outcome ∧
    (create_lesson_from_content title subject summary uid ag ft).title.length ≤ 200 ∧
    (∀ d, (create_lesson_from_content title subject summary uid ag ft).description =
      some d → d.length ≤ 500) ∧
    (create_lesson_from_content title subject summary uid ag ft).is_published = true := by
  refine ⟨?_, pySlice_length_le 200 title, ?_, rfl⟩
  · unfold upload_document
    dsimp only
    rcases hex : st.extract with e2 | content <;> simp only [hex]
    rcases hgen : st.generate content with e2 | ai <;> simp only [hgen]
    cases hfl : st.flushOk
    · rw [if_neg (by decide), if_neg (by decide)]
    · rw [if_pos rfl, if_pos rfl]
      rcases hgf : st.genFlash content ai.key_concepts with e2 | frows <;>
        simp only [hgf]
      rcases haf : addRows mkFlashRcd frows
          ((s0.push Rcd.document).push Rcd.content) with ⟨s3, o3⟩
      cases o3
      · rcases hgq : st.genQues content ai.key_concepts with e2 | qrows <;>
          simp only [hgq]
        rcases haq : addRows mkQuesRcd qrows s3 with ⟨s4, o4⟩
        cases o4
        · rcases hle : st.mkLesson with e3 | u <;> simp only [hle] <;>
            cases hc : st.commitOk <;> rfl
        · rfl
      · rfl
  · intro d hd
    by_cases hs : summary ≠ ""
    · unfold create_lesson_from_content at hd
      rw [if_pos hs] at hd
      cases hd
      exact pySlice_length_le 500 summary
    · unfold create_lesson_from_content at hd
      rw [if_neg hs] at hd
      cases hd

/-- A flashcard dict with both keys present. -/
def sampleFRow : FRow := { term := some "Photosynthesis", defn := some "d" }

/-- A question dict with all three keys present. -/
def sampleQRow : QRow :=
  { question := some "q", answer := some "a", qtype := some "multiple_choice" }

/-- Concrete stages whose pipeline succeeds end to end. -/
def succeedingSteps : UploadSteps :=
  { extract := Except.ok "Photosynthesis converts light energy."
    generate := fun _ => Except.ok
      { summary := "Photosynthesis converts light energy."
        key_concepts := ["Photosynthesis"]
        notes := "notes" }
    genFlash := fun _ _ => Except.ok [sampleFRow]
    genQues := fun _ _ => Except.ok [sampleQRow]
    mkLesson := Except.ok ()
    flushOk := true
    commitOk := true }

/-- Witness for C9: a raising lesson stage leaves the concrete successful
ingestion successful, and a concrete synthesized lesson is published with its
description bounded. -/
theorem lesson_best_effort_and_shape_witness :
    (upload_document { succeedingSteps with mkLesson := Except.error { msg := "boom" } }
        priorSession).outcome = (upload_document succeedingSteps priorSession).outcome ∧
    (upload_document succeedingSteps priorSession).outcome = Outcome.success ∧
    ("short summary" : String).length ≤ 500 ∧
    (create_lesson_from_content "Title" "biology" "short summary" 7
      AgeGroup.teens "pdf").is_published = true := by
  have h := lesson_best_effort_and_shape succeedingSteps priorSession
    { msg := "boom" } "Title" "biology" "short summary" 7 AgeGroup.teens "pdf"
  refine ⟨h.1, by decide, ?_, h.2.2.2⟩
  exact h.2.2.1 "short summary" (by decide)

end EduMorph
